import Mathlib

/-!
Shallow embedding of the `shared_monday` Rust library (`src/lib.rs`) and
verification of its specification.

Strings are modelled as lists of characters (`Str`); Rust's
`String::to_lowercase` is modelled per-character with `Char.toLower`,
which agrees with it on the ASCII wire strings this library uses.
JSON values (`serde_json::Value`) are modelled by the inductive `JsonValue`;
a `HashMap<String, Value>` column record is modelled as an association list
with first-match lookup (Rust hash maps have unique keys, so this agrees).
Rust `Result` is modelled by `Except`, with the error type first.
-/

abbrev Str := List Char

/-- Error taxonomy of the library (`SharedAdapterError` in the source). -/
inductive SharedAdapterError where
  | InvalidPhoneNumber (s : Str)
  | DataFieldNotFound (s : Str)
  deriving DecidableEq, Repr

/-- Message lifecycle states, in the source's declaration order. -/
inductive MessageStatus where
  | Unknown
  | Pending
  | Failed
  | Sent
  | Delivered
  | Read
  | Responded
  | Unsubscribed
  deriving DecidableEq, Repr

/-- All variants of `MessageStatus`, in declaration order (as `strum::EnumIter`
would enumerate them). -/
def MessageStatus.all : List MessageStatus :=
  [.Unknown, .Pending, .Failed, .Sent, .Delivered, .Read, .Responded, .Unsubscribed]

/-- `MessageStatus::COUNT` derived by `strum::EnumCount`: the number of
variants, not a hand-written literal. -/
def MessageStatus.COUNT : Nat := MessageStatus.all.length

/-- `MessageStatus::to_index`: the fixed rank table. The source returns `u8`;
every value is below 8, so plain `Nat` arithmetic agrees with `u8`. -/
def MessageStatus.to_index : MessageStatus → Nat
  | .Pending => 0
  | .Sent => 1
  | .Delivered => 2
  | .Read => 3
  | .Responded => 4
  | .Failed => 5
  | .Unknown => 6
  | .Unsubscribed => 7

/-- A status tagged with the recipient channel it describes. -/
inductive MessageRecipient where
  | Host (status : MessageStatus)
  | Client (status : MessageStatus)
  deriving DecidableEq, Repr

/-- `MessageRecipient::to_index`: the combined index. In the source this is
`u8` arithmetic; the maximum value is 7 + 8 = 15 < 256, so `Nat` agrees. -/
def MessageRecipient.to_index : MessageRecipient → Nat
  | .Client status => status.to_index
  | .Host status => status.to_index + MessageStatus.COUNT

/-- `Ord for MessageStatus`: compare ranks. -/
def MessageStatus.cmp (a b : MessageStatus) : Ordering :=
  compare a.to_index b.to_index

/-- `Ord for MessageRecipient`: compare combined indices. -/
def MessageRecipient.cmp (a b : MessageRecipient) : Ordering :=
  compare a.to_index b.to_index

/-- Per-character model of `str::to_lowercase` (exact on ASCII input). -/
def lowerStr (s : Str) : Str := s.map Char.toLower

/-- `MessageStatus::from_string`: case-insensitive lookup of the wire string;
anything unmapped yields `Unknown`. -/
def MessageStatus.from_string (status : Str) : MessageStatus :=
  let s := lowerStr status
  if s = "sent".toList then .Sent
  else if s = "delivered".toList then .Delivered
  else if s = "read".toList then .Read
  else if s = "failed".toList then .Failed
  else if s = "pending".toList then .Pending
  else if s = "responded".toList then .Responded
  else if s = "unsubscribed".toList then .Unsubscribed
  else .Unknown

/-- `MessageStatus::to_string`: the canonical wire string; the source's
catch-all `_ => "not sent"` arm only ever fires for `Unknown`. -/
def MessageStatus.to_string : MessageStatus → Str
  | .Sent => "sent".toList
  | .Delivered => "delivered".toList
  | .Read => "read".toList
  | .Failed => "failed".toList
  | .Pending => "pending".toList
  | .Responded => "responded".toList
  | .Unsubscribed => "unsubscribed".toList
  | .Unknown => "not sent".toList

/-- The seven wire strings `from_string` maps to a non-`Unknown` status. -/
def mappedWireStrings : List Str :=
  ["sent".toList, "delivered".toList, "read".toList, "failed".toList,
   "pending".toList, "responded".toList, "unsubscribed".toList]

/-- Model of `serde_json::Value` for the dynamically-typed column values. -/
inductive JsonValue where
  | null
  | bool (b : Bool)
  | num (n : Int)
  | str (s : Str)
  | arr (xs : List JsonValue)
  | obj (fields : List (Str × JsonValue))

/-- `serde_json::Value::as_str`: `Some` exactly on JSON strings. -/
def JsonValue.as_str : JsonValue → Option Str
  | .str s => some s
  | _ => none

/-- One column-value record: `HashMap<String, serde_json::Value>`. -/
abbrev ColumnValue := List (Str × JsonValue)

/-- `HashMap::get` on a column record (first matching key). -/
def mapGet (m : ColumnValue) (k : Str) : Option JsonValue :=
  match m with
  | [] => none
  | (k', v) :: rest => if k' = k then some v else mapGet rest k

/-- One upstream item. -/
structure Item where
  name : Option Str
  id : Option Str
  column_values : Option (List ColumnValue)

/-- The untyped upstream page of items. -/
structure ItemsPage where
  items : List Item

/-- The validated output record. -/
structure LeadDetails where
  name : Str
  phone_number : Str
  deriving DecidableEq, Repr

/-- `LeadDetails::new`: the validating constructor. Length 10 gets a `'1'`
prepended, length 11 passes through, anything else is rejected. -/
def LeadDetails.new (name : Str) (phone_number : Str) :
    Except SharedAdapterError LeadDetails :=
  if phone_number.length ≠ 10 ∧ phone_number.length ≠ 11 then
    .error (.InvalidPhoneNumber phone_number)
  else
    let pn := if phone_number.length = 10 then '1' :: phone_number else phone_number
    .ok { name := name, phone_number := pn }

/-- The closure passed to `find` in the `TryFrom` impl:
`column_value.get("text").map(|t| t.as_str().unwrap_or_default().contains("1")).unwrap_or_default()`. -/
def textHasOne (cv : ColumnValue) : Bool :=
  ((mapGet cv "text".toList).map
    (fun t => ((t.as_str).getD "".toList).contains '1')).getD false

/-- Rust's `Option::ok_or` (then `?`): turn an `Option` into an `Except`. -/
def okOr (o : Option α) (e : SharedAdapterError) : Except SharedAdapterError α :=
  match o with
  | some a => .ok a
  | none => .error e

/-- `TryFrom<ItemsPage> for LeadDetails`. -/
def LeadDetails.try_from (items_page : ItemsPage) :
    Except SharedAdapterError LeadDetails := do
  let item ← okOr items_page.items.head? (.DataFieldNotFound "items".toList)
  let name ← okOr item.name (.DataFieldNotFound "name".toList)
  let column_values ← okOr item.column_values (.DataFieldNotFound "column_values".toList)
  let matched ← okOr (column_values.find? textHasOne) (.DataFieldNotFound "phone_number".toList)
  let text ← okOr (mapGet matched "text".toList) (.DataFieldNotFound "text".toList)
  let phone_number ← okOr text.as_str (.DataFieldNotFound "text".toList)
  LeadDetails.new name phone_number

/-- Decidable equality of results, for evaluating the embedding on
concrete inputs. -/
instance [DecidableEq ε] [DecidableEq α] : DecidableEq (Except ε α) := fun a b =>
  match a, b with
  | .ok x, .ok y =>
    if h : x = y then isTrue (by rw [h]) else isFalse (by intro hc; injection hc; contradiction)
  | .ok _, .error _ => isFalse (fun hc => Except.noConfusion hc)
  | .error _, .ok _ => isFalse (fun hc => Except.noConfusion hc)
  | .error x, .error y =>
    if h : x = y then isTrue (by rw [h]) else isFalse (by intro hc; injection hc; contradiction)

/-- A sample column record holding a phone number under the `"text"` key. -/
def sampleColumn : ColumnValue := [("text".toList, .str "15551234567".toList)]

/-- A sample item with a name and one phone column. -/
def sampleItem : Item := ⟨some "Jane".toList, none, some [sampleColumn]⟩

/-- A sample page containing exactly `sampleItem`. -/
def samplePage : ItemsPage := ⟨[sampleItem]⟩

theorem okOr_some (a : α) (e : SharedAdapterError) : okOr (some a) e = .ok a := rfl

theorem okOr_none (e : SharedAdapterError) : okOr (none : Option α) e = .error e := rfl

theorem ok_bind (a : α) (f : α → Except ε β) : (Except.ok a >>= f) = f a := rfl

theorem error_bind (e : ε) (f : α → Except ε β) :
    ((Except.error e : Except ε α) >>= f) = .error e := rfl

theorem toLower_not_upper (d : Char) (hd : ¬(d.toNat ≥ 65 ∧ d.toNat ≤ 90)) :
    Char.toLower d = d := by
  unfold Char.toLower
  exact if_neg hd

theorem toLower_toLower (c : Char) : Char.toLower (Char.toLower c) = Char.toLower c := by
  by_cases h : c.toNat ≥ 65 ∧ c.toNat ≤ 90
  · have h1 : Char.toLower c = Char.ofNat (c.toNat + 32) := by
      unfold Char.toLower
      exact if_pos h
    have hv : Nat.isValidChar (c.toNat + 32) := Or.inl (by omega)
    have ht : (Char.ofNat (c.toNat + 32)).toNat = c.toNat + 32 := by
      unfold Char.ofNat
      rw [dif_pos hv]
      rfl
    rw [h1]
    apply toLower_not_upper
    rw [ht]
    omega
  · rw [toLower_not_upper c h]
    exact toLower_not_upper c h

theorem lowerStr_idem (s : Str) : lowerStr (lowerStr s) = lowerStr s := by
  induction s with
  | nil => rfl
  | cons c cs ih =>
    simp only [lowerStr, List.map_cons] at ih ⊢
    rw [toLower_toLower, ih]

/-- C4: for every pair of statuses `s`, `s'`, a Host-channel report compares
strictly greater than a Client-channel report: `Host(s) > Client(s')`, even
for the lowest-ranked Host status against the highest-ranked Client status. -/
theorem C4_channel_dominance (s s' : MessageStatus) :
    (MessageRecipient.Host s).cmp (MessageRecipient.Client s') = .gt := by
  cases s <;> cases s' <;> rfl

/-- C5: the rank function `MessageStatus.to_index` is total (it is a total
Lean function), assigns exactly the fixed table `Pending=0, Sent=1,
Delivered=2, Read=3, Responded=4, Failed=5, Unknown=6, Unsubscribed=7`
(independent of declaration order, which lists `Unknown` first), and is
injective: ranks agree exactly when the variants agree. -/
theorem C5_rank_injective_table :
    (MessageStatus.to_index .Pending = 0 ∧ MessageStatus.to_index .Sent = 1 ∧
     MessageStatus.to_index .Delivered = 2 ∧ MessageStatus.to_index .Read = 3 ∧
     MessageStatus.to_index .Responded = 4 ∧ MessageStatus.to_index .Failed = 5 ∧
     MessageStatus.to_index .Unknown = 6 ∧ MessageStatus.to_index .Unsubscribed = 7) ∧
    (∀ a b : MessageStatus,
      MessageStatus.to_index a = MessageStatus.to_index b ↔ a = b) := by
  constructor
  · exact ⟨rfl, rfl, rfl, rfl, rfl, rfl, rfl, rfl⟩
  · intro a b
    cases a <;> cases b <;> simp [MessageStatus.to_index]

/-- C6: the combined index of a recipient is the status rank plus
`STATUS_COUNT` (which equals 8, the number of `MessageStatus` variants) for
the Host channel and plus 0 for the Client channel; recipients compare by
these indices, and within each channel the ordering agrees exactly with the
status-rank ordering. -/
theorem C6_combined_index_order :
    (∀ s : MessageStatus,
      (MessageRecipient.Host s).to_index = s.to_index + MessageStatus.COUNT ∧
      (MessageRecipient.Client s).to_index = s.to_index) ∧
    MessageStatus.COUNT = 8 ∧
    (∀ a b : MessageRecipient, a.cmp b = compare a.to_index b.to_index) ∧
    (∀ s1 s2 : MessageStatus,
      ((MessageRecipient.Host s1).cmp (MessageRecipient.Host s2) = .gt ↔
        s2.to_index < s1.to_index) ∧
      ((MessageRecipient.Client s1).cmp (MessageRecipient.Client s2) = .gt ↔
        s2.to_index < s1.to_index)) := by
  refine ⟨fun s => ⟨rfl, rfl⟩, rfl, fun a b => rfl, fun s1 s2 => ⟨?_, ?_⟩⟩
  · rw [MessageRecipient.cmp, Nat.compare_eq_gt]
    show MessageRecipient.to_index _ < MessageRecipient.to_index _ ↔ _
    rw [MessageRecipient.to_index, MessageRecipient.to_index]
    omega
  · rw [MessageRecipient.cmp, Nat.compare_eq_gt]
    show MessageRecipient.to_index _ < MessageRecipient.to_index _ ↔ _
    rw [MessageRecipient.to_index, MessageRecipient.to_index]

/-- C7: the wire-string parser is total (a total Lean function performing a
case-insensitive lookup: parsing a string and parsing its lowercasing agree),
every input whose lowercasing is not one of the seven mapped wire strings
yields `Unknown`, and parsing the serialized wire string of any variant
yields that variant back — including `Unknown`, whose wire string is
`"not sent"`. -/
theorem C7_wire_roundtrip_total :
    (∀ v : MessageStatus, MessageStatus.from_string (MessageStatus.to_string v) = v) ∧
    (∀ s : Str, lowerStr s ∉ mappedWireStrings → MessageStatus.from_string s = .Unknown) ∧
    (∀ s : Str, MessageStatus.from_string (lowerStr s) = MessageStatus.from_string s) ∧
    MessageStatus.from_string "SENT".toList = .Sent ∧
    MessageStatus.from_string "bogus".toList = .Unknown := by
  refine ⟨?_, ?_, ?_, by decide, by decide⟩
  · intro v
    cases v <;> decide
  · intro s h
    simp only [mappedWireStrings, List.mem_cons, List.not_mem_nil, or_false, not_or] at h
    obtain ⟨h1, h2, h3, h4, h5, h6, h7⟩ := h
    simp only [MessageStatus.from_string]
    rw [if_neg h1, if_neg h2, if_neg h3, if_neg h4, if_neg h5, if_neg h6, if_neg h7]
  · intro s
    simp only [MessageStatus.from_string, lowerStr_idem]

/-- Witness for C7: `"bogus"` lowercases to itself, is unmapped, and parses
to `Unknown`. -/
theorem C7_wire_roundtrip_total_witness :
    MessageStatus.from_string "bogus".toList = .Unknown :=
  C7_wire_roundtrip_total.2.1 "bogus".toList (by decide)

theorem new_ok_cases (name pn : Str) (ld : LeadDetails)
    (h : LeadDetails.new name pn = .ok ld) :
    ld.name = name ∧ ld.phone_number.length = 11 ∧
    (pn.length = 10 → ld.phone_number = '1' :: pn) ∧
    (pn.length = 11 → ld.phone_number = pn) := by
  unfold LeadDetails.new at h
  split at h
  · exact Except.noConfusion h
  · rename_i hlen
    rw [not_and_or, not_not, not_not] at hlen
    injection h with h
    subst h
    rcases hlen with h10 | h11
    · simp [h10]
    · have h10 : ¬ pn.length = 10 := by omega
      simp [h10, h11]

theorem new_error_cases (name pn : Str) (e : SharedAdapterError)
    (h : LeadDetails.new name pn = .error e) :
    e = .InvalidPhoneNumber pn ∧ pn.length ≠ 10 ∧ pn.length ≠ 11 := by
  unfold LeadDetails.new at h
  split at h
  · rename_i hlen
    injection h with h
    exact ⟨h.symm, hlen⟩
  · exact Except.noConfusion h

/-- C3: the phone normalization in `LeadDetails::new`: length 10 succeeds
with `'1'` prepended, length 11 succeeds unchanged, any other length fails
with `InvalidPhoneNumber` carrying exactly the original input, and it fails
if and only if the length is neither 10 nor 11. -/
theorem C3_normalize_phone (name raw : Str) :
    (raw.length = 10 →
      LeadDetails.new name raw = .ok ⟨name, '1' :: raw⟩) ∧
    (raw.length = 11 →
      LeadDetails.new name raw = .ok ⟨name, raw⟩) ∧
    (raw.length ≠ 10 → raw.length ≠ 11 →
      LeadDetails.new name raw = .error (.InvalidPhoneNumber raw)) ∧
    ((∃ e, LeadDetails.new name raw = .error e) ↔
      raw.length ≠ 10 ∧ raw.length ≠ 11) := by
  refine ⟨?_, ?_, ?_, ?_⟩
  · intro h
    simp [LeadDetails.new, h]
  · intro h
    have h10 : ¬ raw.length = 10 := by omega
    simp [LeadDetails.new, h, h10]
  · intro h10 h11
    simp [LeadDetails.new, h10, h11]
  · constructor
    · rintro ⟨e, he⟩
      exact (new_error_cases name raw e he).2
    · rintro ⟨h10, h11⟩
      exact ⟨.InvalidPhoneNumber raw, by simp [LeadDetails.new, h10, h11]⟩

/-- Witness for C3: a 10-digit input gets `'1'` prepended; a 6-digit input
is rejected carrying the original string. -/
theorem C3_normalize_phone_witness :
    LeadDetails.new "a".toList "5551234567".toList =
      .ok ⟨"a".toList, "15551234567".toList⟩ ∧
    LeadDetails.new "a".toList "555123".toList =
      .error (.InvalidPhoneNumber "555123".toList) := by
  constructor
  · have h := (C3_normalize_phone "a".toList "5551234567".toList).1 (by decide)
    rw [h]
    decide
  · exact (C3_normalize_phone "a".toList "555123".toList).2.2.1 (by decide) (by decide)

/-- C10: `LeadDetails::new` places no constraint on the name and passes it
through unchanged: construction succeeds for every name (including the empty
string) whenever the phone length is 10 or 11, and the only error it ever
returns is `InvalidPhoneNumber`. -/
theorem C10_name_unconstrained (name pn : Str) :
    (pn.length = 10 ∨ pn.length = 11 →
      ∃ ld, LeadDetails.new name pn = .ok ld ∧ ld.name = name) ∧
    (∀ e, LeadDetails.new name pn = .error e → e = .InvalidPhoneNumber pn) := by
  constructor
  · intro h
    cases hr : LeadDetails.new name pn with
    | ok ld => exact ⟨ld, rfl, (new_ok_cases name pn ld hr).1⟩
    | error e =>
      have := (new_error_cases name pn e hr).2
      omega
  · intro e he
    exact (new_error_cases name pn e he).1

/-- Witness for C10: an empty name is accepted with a valid phone, and the
error on a short phone is `InvalidPhoneNumber`. -/
theorem C10_name_unconstrained_witness :
    (∃ ld, LeadDetails.new "".toList "5551234567".toList = .ok ld ∧
      ld.name = "".toList) ∧
    SharedAdapterError.InvalidPhoneNumber "555".toList =
      .InvalidPhoneNumber "555".toList := by
  constructor
  · exact (C10_name_unconstrained "".toList "5551234567".toList).1 (Or.inl (by decide))
  · exact (C10_name_unconstrained "".toList "555".toList).2 _ (by decide)

/-- C8: no operation panics: both the page conversion and the validating
constructor are total functions whose result is always either a value or a
typed `SharedAdapterError` (the embedding is total Lean code, and the source
uses no panicking operation on any path). -/
theorem C8_no_panics :
    (∀ page : ItemsPage,
      (∃ ld, LeadDetails.try_from page = .ok ld) ∨
      (∃ e, LeadDetails.try_from page = .error e)) ∧
    (∀ name pn : Str,
      (∃ ld, LeadDetails.new name pn = .ok ld) ∨
      (∃ e, LeadDetails.new name pn = .error e)) := by
  constructor
  · intro page
    cases h : LeadDetails.try_from page with
    | ok ld => exact Or.inl ⟨ld, rfl⟩
    | error e => exact Or.inr ⟨e, rfl⟩
  · intro name pn
    cases h : LeadDetails.new name pn with
    | ok ld => exact Or.inl ⟨ld, rfl⟩
    | error e => exact Or.inr ⟨e, rfl⟩

theorem try_from_ok_through_new (page : ItemsPage) (ld : LeadDetails)
    (h : LeadDetails.try_from page = .ok ld) :
    ∃ name s, LeadDetails.new name s = .ok ld := by
  unfold LeadDetails.try_from at h
  cases hi : page.items.head? <;>
    rw [hi] at h <;> simp only [okOr_some, okOr_none, ok_bind, error_bind] at h
  · exact Except.noConfusion h
  case some item =>
  cases hn : item.name <;>
    rw [hn] at h <;> simp only [okOr_some, okOr_none, ok_bind, error_bind] at h
  · exact Except.noConfusion h
  case some name =>
  cases hc : item.column_values <;>
    rw [hc] at h <;> simp only [okOr_some, okOr_none, ok_bind, error_bind] at h
  · exact Except.noConfusion h
  case some cvs =>
  cases hf : cvs.find? textHasOne <;>
    rw [hf] at h <;> simp only [okOr_some, okOr_none, ok_bind, error_bind] at h
  · exact Except.noConfusion h
  case some cv =>
  cases ht : mapGet cv "text".toList <;>
    rw [ht] at h <;> simp only [okOr_some, okOr_none, ok_bind, error_bind] at h
  · exact Except.noConfusion h
  case some t =>
  cases hs : t.as_str <;>
    rw [hs] at h <;> simp only [okOr_some, okOr_none, ok_bind, error_bind] at h
  · exact Except.noConfusion h
  case some s => exact ⟨name, s, h⟩

/-- Counterexample for C2: the constructor accepts an 11-character string
unchanged without checking digits or the leading character: a digit string
beginning with `'2'` succeeds, and so does a non-digit 11-character string. -/
theorem C2_phone_invariant_counterexample :
    LeadDetails.new "Jane".toList "25551234567".toList =
      .ok ⟨"Jane".toList, "25551234567".toList⟩ ∧
    ("25551234567".toList).head? = some '2' ∧
    LeadDetails.new "Jane".toList "abcdefghijk".toList =
      .ok ⟨"Jane".toList, "abcdefghijk".toList⟩ ∧
    ('a' : Char).isDigit = false := by
  refine ⟨by decide, by decide, by decide, by decide⟩

/-- C2 as amended: every `LeadDetails` produced by `LeadDetails::new` or by
the conversion from `ItemsPage` has a `phone_number` of length exactly 11;
the leading `'1'` is guaranteed only on the length-10 path, where it is
prepended (the length-11 path passes the input through unchecked). -/
theorem C2_phone_invariant_amended :
    (∀ name pn ld, LeadDetails.new name pn = .ok ld →
      ld.name = name ∧ ld.phone_number.length = 11 ∧
      (pn.length = 10 → ld.phone_number = '1' :: pn)) ∧
    (∀ page ld, LeadDetails.try_from page = .ok ld →
      ld.phone_number.length = 11) := by
  constructor
  · intro name pn ld h
    have hc := new_ok_cases name pn ld h
    exact ⟨hc.1, hc.2.1, hc.2.2.1⟩
  · intro page ld h
    obtain ⟨name, s, hn⟩ := try_from_ok_through_new page ld h
    exact (new_ok_cases name s ld hn).2.1

/-- Witness for C2's amended statement: evaluated on the sample page, the
extracted lead's phone number has length 11, and a direct construction from
a 10-digit string does too. -/
theorem C2_phone_invariant_amended_witness :
    ((LeadDetails.mk "Jane".toList "15551234567".toList).phone_number.length = 11) ∧
    ((LeadDetails.mk "a".toList "15551234567".toList).name = "a".toList) := by
  constructor
  · exact C2_phone_invariant_amended.2 samplePage
      (LeadDetails.mk "Jane".toList "15551234567".toList) (by decide)
  · exact (C2_phone_invariant_amended.1 "a".toList "5551234567".toList
      (LeadDetails.mk "a".toList "15551234567".toList) (by decide)).1


/-- C1: the conversion from `ItemsPage` to `LeadDetails` follows the
specified steps and error codes: an empty items sequence fails with
`DataFieldNotFound("items")`; for the first item, a missing name fails with
`DataFieldNotFound("name")` and missing column values with
`DataFieldNotFound("column_values")`; the scan selects the first record
whose `"text"` value is a string containing `'1'` (the final conjunct
characterizes the selection predicate), failing with
`DataFieldNotFound("phone_number")` when no record matches; on a match the
matched text and the item's name are delegated to `LeadDetails::new`. -/
theorem C1_extraction_steps (page : ItemsPage) :
    (page.items = [] →
      LeadDetails.try_from page = .error (.DataFieldNotFound "items".toList)) ∧
    (∀ item rest, page.items = item :: rest →
      (item.name = none →
        LeadDetails.try_from page = .error (.DataFieldNotFound "name".toList)) ∧
      (∀ name, item.name = some name →
        (item.column_values = none →
          LeadDetails.try_from page = .error (.DataFieldNotFound "column_values".toList)) ∧
        (∀ cvs, item.column_values = some cvs →
          (cvs.find? textHasOne = none →
            LeadDetails.try_from page = .error (.DataFieldNotFound "phone_number".toList)) ∧
          (∀ cv, cvs.find? textHasOne = some cv →
            ∃ t s, mapGet cv "text".toList = some t ∧ t.as_str = some s ∧
              s.contains '1' = true ∧
              LeadDetails.try_from page = LeadDetails.new name s)))) ∧
    (∀ cv : ColumnValue, textHasOne cv = true ↔
      ∃ t s, mapGet cv "text".toList = some t ∧ t.as_str = some s ∧
        s.contains '1' = true) := by
  refine ⟨?_, ?_, ?_⟩
  · intro h
    unfold LeadDetails.try_from
    rw [h]
    rfl
  · intro item rest hitems
    have hhead : page.items.head? = some item := by rw [hitems]; rfl
    refine ⟨?_, fun name hname => ⟨?_, fun cvs hcv => ⟨?_, fun cv hfind => ?_⟩⟩⟩
    · intro hname
      unfold LeadDetails.try_from
      rw [hhead, okOr_some, ok_bind, hname]
      rfl
    · intro hcv
      unfold LeadDetails.try_from
      rw [hhead, okOr_some, ok_bind, hname, okOr_some, ok_bind, hcv]
      rfl
    · intro hfind
      unfold LeadDetails.try_from
      rw [hhead, okOr_some, ok_bind, hname, okOr_some, ok_bind, hcv, okOr_some,
        ok_bind, hfind]
      rfl
    · have hmatch : textHasOne cv = true := List.find?_some hfind
      unfold textHasOne at hmatch
      cases ht : mapGet cv "text".toList with
      | none =>
        rw [ht] at hmatch
        exact absurd hmatch (by decide)
      | some t =>
        rw [ht] at hmatch
        simp only [Option.map_some', Option.getD_some] at hmatch
        cases hs : t.as_str with
        | none =>
          rw [hs] at hmatch
          exact absurd hmatch (by decide)
        | some s =>
          rw [hs] at hmatch
          simp only [Option.getD_some] at hmatch
          refine ⟨t, s, rfl, hs, hmatch, ?_⟩
          unfold LeadDetails.try_from
          rw [hhead, okOr_some, ok_bind, hname, okOr_some, ok_bind, hcv, okOr_some,
            ok_bind, hfind, okOr_some, ok_bind, ht, okOr_some, ok_bind, hs, okOr_some,
            ok_bind]
  · intro cv
    constructor
    · intro h
      unfold textHasOne at h
      cases ht : mapGet cv "text".toList with
      | none =>
        rw [ht] at h
        exact absurd h (by decide)
      | some t =>
        rw [ht] at h
        simp only [Option.map_some', Option.getD_some] at h
        cases hs : t.as_str with
        | none =>
          rw [hs] at h
          exact absurd h (by decide)
        | some s =>
          rw [hs] at h
          simp only [Option.getD_some] at h
          exact ⟨t, s, rfl, hs, h⟩
    · rintro ⟨t, s, ht, hs, hc⟩
      unfold textHasOne
      rw [ht]
      simp only [Option.map_some', Option.getD_some, hs]
      exact hc

/-- Witness for C1: the empty page yields the `"items"` error, and on the
sample page the scan selects the phone column and delegates to the
constructor. -/
theorem C1_extraction_steps_witness :
    (LeadDetails.try_from ⟨[]⟩ = .error (.DataFieldNotFound "items".toList)) ∧
    (∃ t s, mapGet sampleColumn "text".toList = some t ∧ t.as_str = some s ∧
      s.contains '1' = true ∧
      LeadDetails.try_from samplePage = LeadDetails.new "Jane".toList s) := by
  constructor
  · exact (C1_extraction_steps ⟨[]⟩).1 rfl
  · exact ((((C1_extraction_steps samplePage).2.1 sampleItem [] rfl).2
      "Jane".toList rfl).2 [sampleColumn] rfl).2 sampleColumn rfl

theorem try_from_error_cases (page : ItemsPage) (e : SharedAdapterError)
    (h : LeadDetails.try_from page = .error e) :
    e = .DataFieldNotFound "items".toList ∨ e = .DataFieldNotFound "name".toList ∨
    e = .DataFieldNotFound "column_values".toList ∨
    e = .DataFieldNotFound "phone_number".toList ∨
    ∃ s, e = .InvalidPhoneNumber s := by
  unfold LeadDetails.try_from at h
  cases hi : page.items.head? <;>
    rw [hi] at h <;> simp only [okOr_some, okOr_none, ok_bind, error_bind] at h
  · injection h with h
    exact Or.inl h.symm
  case some item =>
  cases hn : item.name <;>
    rw [hn] at h <;> simp only [okOr_some, okOr_none, ok_bind, error_bind] at h
  · injection h with h
    exact Or.inr (Or.inl h.symm)
  case some name =>
  cases hc : item.column_values <;>
    rw [hc] at h <;> simp only [okOr_some, okOr_none, ok_bind, error_bind] at h
  · injection h with h
    exact Or.inr (Or.inr (Or.inl h.symm))
  case some cvs =>
  cases hf : cvs.find? textHasOne <;>
    rw [hf] at h <;> simp only [okOr_some, okOr_none, ok_bind, error_bind] at h
  · injection h with h
    exact Or.inr (Or.inr (Or.inr (Or.inl h.symm)))
  case some cv =>
  have hmatch : textHasOne cv = true := List.find?_some hf
  unfold textHasOne at hmatch
  cases ht : mapGet cv "text".toList <;>
    rw [ht] at h <;> simp only [okOr_some, okOr_none, ok_bind, error_bind] at h
  · rw [ht] at hmatch
    exact absurd hmatch (by decide)
  case some t =>
  rw [ht] at hmatch
  simp only [Option.map_some', Option.getD_some] at hmatch
  cases hs : t.as_str <;>
    rw [hs] at h <;> simp only [okOr_some, okOr_none, ok_bind, error_bind] at h
  · rw [hs] at hmatch
    exact absurd hmatch (by decide)
  case some s =>
  exact Or.inr (Or.inr (Or.inr (Or.inr ⟨s, (new_error_cases name s e h).1⟩)))

/-- C9: the conversion never returns `DataFieldNotFound("text")`: the
selection predicate only matches records whose `"text"` value is a present
JSON string, so the two `"text"` error branches are unreachable, and every
error the conversion returns is one of the four other field errors or an
`InvalidPhoneNumber`. -/
theorem C9_no_text_error (page : ItemsPage) :
    decide (LeadDetails.try_from page =
      .error (.DataFieldNotFound "text".toList)) = false ∧
    (∀ e, LeadDetails.try_from page = .error e →
      e = .DataFieldNotFound "items".toList ∨ e = .DataFieldNotFound "name".toList ∨
      e = .DataFieldNotFound "column_values".toList ∨
      e = .DataFieldNotFound "phone_number".toList ∨
      ∃ s, e = .InvalidPhoneNumber s) := by
  refine ⟨?_, try_from_error_cases page⟩
  apply decide_eq_false
  intro h
  rcases try_from_error_cases page _ h with h1 | h1 | h1 | h1 | ⟨s, h1⟩
  · exact absurd h1 (by decide)
  · exact absurd h1 (by decide)
  · exact absurd h1 (by decide)
  · exact absurd h1 (by decide)
  · exact SharedAdapterError.noConfusion h1

/-- Witness for C9: on the empty page the conversion errors with the
`"items"` field, which falls in the allowed error set. -/
theorem C9_no_text_error_witness :
    SharedAdapterError.DataFieldNotFound "items".toList =
      .DataFieldNotFound "items".toList ∨
    SharedAdapterError.DataFieldNotFound "items".toList =
      .DataFieldNotFound "name".toList ∨
    SharedAdapterError.DataFieldNotFound "items".toList =
      .DataFieldNotFound "column_values".toList ∨
    SharedAdapterError.DataFieldNotFound "items".toList =
      .DataFieldNotFound "phone_number".toList ∨
    ∃ s, SharedAdapterError.DataFieldNotFound "items".toList =
      .InvalidPhoneNumber s :=
  (C9_no_text_error ⟨[]⟩).2 _ rfl
